import Mathlib

/-!
Shallow embedding of `configurator/src/MainWindow.cpp` (the iTALC/Veyon
configurator main window): configuration lifecycle (reset / apply / load /
save), bug-report archive assembly and close-event gating, together with
theorems about the behaviour of these operations.
-/

set_option autoImplicit false

namespace Configurator

/-- Qt strings (`QString`) are modelled as lists of characters. -/
abbrev Str := List Char

/-- Conversion from a Lean string literal to the `QString` model. -/
def qstr (s : String) : Str := s.data

/-- `QString::isEmpty`. -/
def strIsEmpty (s : Str) : Bool := s.isEmpty

/-- `QString::endsWith` with `Qt::CaseSensitive` (the default). -/
def strEndsWith (s suffix : Str) : Bool := suffix.isSuffixOf s

/-- `QString::toLower`. -/
def strToLower (s : Str) : Str := s.map Char.toLower

/-- `QString::endsWith` with `Qt::CaseInsensitive`: both sides are compared
case-folded. -/
def endsWithCI (s suffix : Str) : Bool := strEndsWith (strToLower s) (strToLower suffix)

/-- Modelled from the spec: the configuration snapshot held by
`Configuration::Object` (a class outside this excerpt) is "an ordered mapping
from setting key to typed value"; it is modelled as an association list whose
key uniqueness is maintained by `setValue`. -/
abbrev Config := List (Str × Str)

/-- Modelled from the spec: `Configuration::Object::setValue` (outside this
excerpt) stores a value under a key with map semantics — it overrides an
existing entry for the same key in place and appends a new entry otherwise. -/
def setValue : Config → Str → Str → Config
  | [], k, v => [(k, v)]
  | kv :: rest, k, v => if kv.1 == k then (k, v) :: rest else kv :: setValue rest k v

/-- Modelled from the spec: the configuration merge operator `+=` (outside
this excerpt) adds every entry of the right-hand layer in order, each entry
overriding any existing value for its key ("later layers override earlier
ones on key collision"). -/
def mergeConfig (c other : Config) : Config :=
  other.foldl (fun acc kv => setValue acc kv.1 kv.2) c

/-- First-occurrence lookup of a key in a configuration. -/
def lookup? : Config → Str → Option Str
  | [], _ => none
  | kv :: rest, k => if kv.1 == k then some kv.2 else lookup? rest k

/-- Last-occurrence lookup of a key: the value written last for that key. -/
def lookupLast? (c : Config) (k : Str) : Option Str := lookup? c.reverse k

/-- Left-biased choice on optional values (the combinator used to state
layer precedence). -/
def orElseO (a b : Option Str) : Option Str :=
  match a with
  | some v => some v
  | none => b

/-- The observable state of `MainWindow`: the global configuration snapshot
(`ItalcCore::config()`), the values currently shown by the widgets bound to
it, the dirty flag `m_configChanged`, and the enabled state of the button box
(the pending-changes affordance). -/
structure MainWindowState where
  config : Config
  widgets : Config
  m_configChanged : Bool
  buttonBoxEnabled : Bool
  deriving Repr, DecidableEq

/-- The two external configuration layers consulted by `reset`:
`ItalcConfiguration::defaultConfiguration()` and the configuration read from
`Configuration::Store::LocalBackend`. -/
structure ConfigEnv where
  defaultConfiguration : Config
  localBackend : Config
  deriving Repr, DecidableEq

/-- `MainWindow::configurationChanged` (MainWindow.cpp lines 132-136): enable
the button box and set the dirty flag. -/
def configurationChanged (s : MainWindowState) : MainWindowState :=
  { s with buttonBoxEnabled := true, m_configChanged := true }

/-- The snapshot after the merge step of `reset` (lines 96-101): rebuilt by
clearing and merging in the default layer and then the local-backend layer
when `onlyUI` is false, kept as it is otherwise. -/
def resetConfig (env : ConfigEnv) (onlyUI : Bool) (s : MainWindowState) : Config :=
  if onlyUI = false then
    mergeConfig (mergeConfig ([] : Config) env.defaultConfiguration) env.localBackend
  else s.config

/-- `MainWindow::reset` (lines 94-110): when `onlyUI` is false, clear the
snapshot, merge in the default configuration and then the local-backend
configuration; in every case resynchronize the widgets from the snapshot
(`page->resetWidgets()`), disable the button box and clear the dirty flag. -/
def reset (env : ConfigEnv) (onlyUI : Bool) (s : MainWindowState) : MainWindowState :=
  { config := resetConfig env onlyUI s
    widgets := resetConfig env onlyUI s
    m_configChanged := false
    buttonBoxEnabled := false }

/-- `MainWindow::apply` (lines 115-127): `applyOk` is the Boolean result of
the external `ConfiguratorCore::applyConfiguration` call; only on success are
the button box disabled and the dirty flag cleared (the
`page->applyConfiguration()` propagation acts on components outside the
modelled state). On failure nothing happens in this layer. -/
def apply (applyOk : Bool) (s : MainWindowState) : MainWindowState :=
  if applyOk then { s with buttonBoxEnabled := false, m_configChanged := false } else s

/-- `MainWindow::loadSettingsFromFile` (lines 155-166): `fileName` is the
file-dialog result; `loaded` is the snapshot content after the external
`Configuration::JsonStore::load` call read the chosen file into the live
configuration object in place. An empty file name abandons the action. -/
def loadSettingsFromFile (env : ConfigEnv) (fileName : Str) (loaded : Config)
    (s : MainWindowState) : MainWindowState :=
  if strIsEmpty fileName then s
  else configurationChanged (reset env true { s with config := loaded })

/-- Lines 177-180 of `MainWindow::saveSettingsToFile`: append `".json"`
unless the chosen name already ends in `".json"` case-insensitively. -/
def settingsSaveFileName (fileName : Str) : Str :=
  if endsWithCI fileName (qstr ".json") then fileName else fileName ++ qstr ".json"

/-- `MainWindow::saveSettingsToFile` (lines 171-190). `flushSignal` models
whether the external `JsonStore::flush` call makes the configuration object
emit the `configurationChanged` signal wired to this window in the
constructor (line 80); the source guards against that by saving
`m_configChanged` before the flush and restoring it afterwards, and then sets
the button box enabled state from the restored flag. The second result
component is the write effect: the path and the snapshot handed to the
store, `none` when the dialog was cancelled. -/
def saveSettingsToFile (flushSignal : Bool) (fileName : Str)
    (s : MainWindowState) : MainWindowState × Option (Str × Config) :=
  if strIsEmpty fileName then (s, none)
  else
    ({ (if flushSignal then configurationChanged s else s) with
         m_configChanged := s.m_configChanged,
         buttonBoxEnabled := s.m_configChanged },
     some (settingsSaveFileName fileName, s.config))

/-- The window state right after the constructor's initializer list
(`m_configChanged( false )`) and before the initial `reset()` call. -/
def initialState : MainWindowState :=
  { config := [], widgets := [], m_configChanged := false, buttonBoxEnabled := false }

/-- `MainWindow::MainWindow` (lines 46-64): initialize, `reset()`, and when
the local-backend configuration holds fewer entries than the merged one
(`data().size()` comparison), call `configurationChanged()`. -/
def mkMainWindow (env : ConfigEnv) : MainWindowState :=
  if env.localBackend.length < (reset env false initialState).config.length then
    configurationChanged (reset env false initialState)
  else
    reset env false initialState

/-- Lines 208-211 of `MainWindow::generateBugReportArchive`: append `".json"`
unless the chosen name already ends in `".json"` case-sensitively. -/
def bugReportFileName (outfile : Str) : Str :=
  if strEndsWith outfile (qstr ".json") then outfile else outfile ++ qstr ".json"

/-- The compile-time host architecture flag (`ITALC_HOST_X86`,
`ITALC_HOST_X86_64`, or neither). -/
inductive BuildHost
  | x86
  | x86_64
  | other
  deriving Repr, DecidableEq

/-- Lines 261-267: the build-type label selected at compile time. -/
def buildTypeLabel : BuildHost → Str
  | .x86 => qstr "x86"
  | .x86_64 => qstr "x86_64"
  | .other => qstr "unknown"

/-- The environment of `generateBugReportArchive`: the collected OS
descriptor and machine-info strings, the compile-time host architecture, the
version string, the scanned log directories (each directory given as the
list of its file names with raw contents), and the external `qCompress` and
`QByteArray::toBase64` primitives. -/
structure BugReportEnv where
  os : Str
  machineInfo : Str
  buildHost : BuildHost
  version : Str
  logDirs : List (List (Str × List Nat))
  compress : List Nat → List Nat
  toBase64 : List Nat → Str

/-- The `"Italc*.log"` name filter used with `QDir::entryList` (line 289): the
name starts with `"Italc"` and the remainder ends with `".log"`. -/
def matchesLogFilter (name : Str) : Bool :=
  List.isPrefixOf (qstr "Italc") name && strEndsWith (name.drop 5) (qstr ".log")

/-- `QFileInfo::baseName`: the file name up to the first dot. -/
def baseName (name : Str) : Str := name.takeWhile (fun c => c ≠ '.')

/-- Lines 286-296: the log-file entries destined for the `"LogFiles"` group,
in scan order — for every file of every directory that matches the filter,
the key is the base name and the value is the base64 encoding of the
compressed contents. -/
def logFileEntries (env : BugReportEnv) : List (Str × Str) :=
  (env.logDirs.map (fun d =>
    (d.filter (fun f => matchesLogFilter f.1)).map
      (fun f => (baseName f.1, env.toBase64 (env.compress f.2))))).flatten

/-- Modelled from the spec: the bug-report document written through
`Configuration::Object` / `JsonStore` (classes outside this excerpt) is "a
JSON-like tree" with top-level groups `General`, `Configuration` and
`LogFiles`; each group is a key-value mapping with `setValue` override
semantics. -/
structure BugReportDoc where
  general : Config
  configuration : Config
  logFiles : Config
  deriving Repr, DecidableEq

/-- Lines 268-299: the assembled document — the four `General` values written
by `obj.setValue`, the whole current snapshot embedded under
`Configuration`, and the log-file entries accumulated under `LogFiles`
(duplicate base names override, map semantics). -/
def buildBugReport (env : BugReportEnv) (cfg : Config) : BugReportDoc :=
  { general :=
      setValue (setValue (setValue (setValue [] (qstr "OS") env.os)
        (qstr "MachineInfo") env.machineInfo)
        (qstr "BuildType") (buildTypeLabel env.buildHost))
        (qstr "Version") env.version
    configuration := cfg
    logFiles := mergeConfig [] (logFileEntries env) }

/-- `MainWindow::generateBugReportArchive` (lines 195-306). The result
components are: the window state afterwards (unchanged — the routine touches
neither the snapshot nor the dirty flag), the single write effect performed
by `obj.flushStore()` at the end (`none` when the dialog was cancelled), and
whether the confirmation message box was shown. -/
def generateBugReportArchive (env : BugReportEnv) (outfile : Str)
    (s : MainWindowState) : MainWindowState × Option (Str × BugReportDoc) × Bool :=
  if strIsEmpty outfile then (s, none, false)
  else (s, some (bugReportFileName outfile, buildBugReport env s.config), true)

/-- The answer returned by `QMessageBox::question` on the unsaved-settings
prompt: `Yes`, `No`, or anything else (the dialog dismissed some other way). -/
inductive MessageAnswer
  | yes
  | no
  | other
  deriving Repr, DecidableEq

/-- The outcome of a close request: whether the close event was accepted,
whether the unsaved-settings prompt was shown, and the window state left
behind. -/
structure CloseResult where
  accepted : Bool
  promptShown : Bool
  finalState : MainWindowState
  deriving Repr, DecidableEq

/-- `MainWindow::closeEvent` (lines 317-332): when the dirty flag is set, ask
"Unsaved settings — Quit anyway?" and ignore the event unless the answer is
`Yes`; the short-circuit of `&&` means no prompt is shown when the flag is
clear. -/
def closeEvent (answer : MessageAnswer) (s : MainWindowState) : CloseResult :=
  if s.m_configChanged && !(answer == MessageAnswer.yes) then
    { accepted := false, promptShown := true, finalState := s }
  else
    { accepted := true, promptShown := s.m_configChanged, finalState := s }

/-! ### Lookup and merge lemmas -/

theorem lookup?_setValue (c : Config) (k' v' k : Str) :
    lookup? (setValue c k' v') k = if k' = k then some v' else lookup? c k := by
  induction c with
  | nil => simp [setValue, lookup?, beq_iff_eq]
  | cons kv rest ih =>
    by_cases h1 : kv.1 = k' <;> by_cases h2 : k' = k <;>
      simp_all [setValue, lookup?, beq_iff_eq]

theorem lookup?_append (a b : Config) (k : Str) :
    lookup? (a ++ b) k = orElseO (lookup? a k) (lookup? b k) := by
  induction a with
  | nil => simp [lookup?, orElseO]
  | cons kv rest ih =>
    by_cases h : kv.1 = k <;> simp_all [lookup?, orElseO, beq_iff_eq]

theorem orElseO_none_right (a : Option Str) : orElseO a none = a := by
  cases a <;> simp [orElseO]

theorem orElseO_assoc (a b c : Option Str) :
    orElseO (orElseO a b) c = orElseO a (orElseO b c) := by
  cases a <;> simp [orElseO]

theorem lookupLast?_cons (kv : Str × Str) (o : Config) (k : Str) :
    lookupLast? (kv :: o) k =
      orElseO (lookupLast? o k) (if kv.1 = k then some kv.2 else none) := by
  simp [lookupLast?, List.reverse_cons, lookup?_append, lookup?, beq_iff_eq]

/-- The key theorem about the spec-modelled merge operator: a key's value in
`mergeConfig c o` is its last-written value in the layer `o` when `o` defines
the key, and its value in `c` otherwise. -/
theorem lookup?_mergeConfig (o c : Config) (k : Str) :
    lookup? (mergeConfig c o) k = orElseO (lookupLast? o k) (lookup? c k) := by
  induction o generalizing c with
  | nil => simp [mergeConfig, lookupLast?, lookup?, orElseO]
  | cons kv o' ih =>
    have hstep : mergeConfig c (kv :: o') = mergeConfig (setValue c kv.1 kv.2) o' := rfl
    rw [hstep, ih, lookup?_setValue, lookupLast?_cons, orElseO_assoc]
    by_cases h : kv.1 = k <;> cases hL : lookupLast? o' k <;> simp [orElseO, h]

/-- Effective-value characterization of the snapshot rebuilt by
`reset(false)`: the local-backend layer wins over the default layer. -/
theorem reset_effectiveValue (env : ConfigEnv) (s : MainWindowState) (k : Str) :
    lookup? ((reset env false s).config) k =
      orElseO (lookupLast? env.localBackend k) (lookupLast? env.defaultConfiguration k) := by
  show lookup?
    (mergeConfig (mergeConfig ([] : Config) env.defaultConfiguration) env.localBackend) k = _
  rw [lookup?_mergeConfig, lookup?_mergeConfig]
  simp [lookup?, orElseO_none_right]

/-! ### Sample data used by the witness instantiations -/

/-- A sample window state with pending changes (dirty flag set, button box
enabled). -/
def sampleDirty : MainWindowState :=
  { config := [(qstr "a", qstr "1")], widgets := [], m_configChanged := true,
    buttonBoxEnabled := true }

/-- A sample layer environment whose local backend is missing a key. -/
def sampleEnv : ConfigEnv :=
  { defaultConfiguration := [(qstr "a", qstr "1")], localBackend := [] }

/-- A sample layer environment with empty layers. -/
def emptyEnv : ConfigEnv :=
  { defaultConfiguration := [], localBackend := [] }

/-! ### Claims -/

/-- Claim C1: `apply` clears the dirty flag and disables the pending-changes
affordance exactly when the external `ConfiguratorCore::applyConfiguration`
commit succeeds; when the commit fails the whole state — dirty flag and
affordance included — is left unchanged, and the operation is total, raising
no error in this layer. -/
theorem C1_apply_commit (applyOk : Bool) (s : MainWindowState) :
    (applyOk = true →
      apply applyOk s = { s with m_configChanged := false, buttonBoxEnabled := false }) ∧
    (applyOk = false → apply applyOk s = s) ∧
    (apply applyOk s ≠ s → applyOk = true) := by
  cases applyOk <;> simp [apply]

/-- Closed instantiation of C1 at a dirty state, for a succeeding and for a
failing commit. -/
theorem C1_apply_commit_witness :
    apply true sampleDirty
      = { sampleDirty with m_configChanged := false, buttonBoxEnabled := false } ∧
    apply false sampleDirty = sampleDirty :=
  ⟨(C1_apply_commit true sampleDirty).1 rfl, (C1_apply_commit false sampleDirty).2.1 rfl⟩

/-- Claim C2: with a non-empty chosen path, `saveSettingsToFile` hands the
current in-memory snapshot (under the normalized file name) to the external
store and afterwards leaves the dirty flag equal to its value observed
immediately before the call, whatever the flush did; snapshot and widgets
are untouched. Saving to a file is thereby not an apply: a set dirty flag
stays set. -/
theorem C2_save_preserves_dirty (flushSignal : Bool) (fileName : Str)
    (s : MainWindowState) (h : strIsEmpty fileName = false) :
    (saveSettingsToFile flushSignal fileName s).1.m_configChanged = s.m_configChanged ∧
    (saveSettingsToFile flushSignal fileName s).1.buttonBoxEnabled = s.m_configChanged ∧
    (saveSettingsToFile flushSignal fileName s).1.config = s.config ∧
    (saveSettingsToFile flushSignal fileName s).1.widgets = s.widgets ∧
    (saveSettingsToFile flushSignal fileName s).2 =
      some (settingsSaveFileName fileName, s.config) := by
  cases flushSignal <;> simp [saveSettingsToFile, h, configurationChanged]

/-- Closed instantiation of C2: saving a dirty state keeps the dirty flag and
emits the snapshot as the write effect. -/
theorem C2_save_preserves_dirty_witness :
    (saveSettingsToFile true (qstr "settings") sampleDirty).1.m_configChanged =
      sampleDirty.m_configChanged ∧
    (saveSettingsToFile true (qstr "settings") sampleDirty).2 =
      some (settingsSaveFileName (qstr "settings"), sampleDirty.config) :=
  ⟨(C2_save_preserves_dirty true (qstr "settings") sampleDirty (by decide)).1,
   (C2_save_preserves_dirty true (qstr "settings") sampleDirty (by decide)).2.2.2.2⟩

/-- Claim C3: the settings-save normalization appends ".json" exactly when
the chosen name does not already end in ".json" case-insensitively, while
the bug-report normalization appends exactly when the name does not end in
".json" case-sensitively; hence "report.JSON" is kept by the former and
becomes "report.JSON.json" under the latter, and "report" becomes
"report.json". -/
theorem C3_extension_asymmetry (name : Str) :
    (endsWithCI name (qstr ".json") = true → settingsSaveFileName name = name) ∧
    (endsWithCI name (qstr ".json") = false →
      settingsSaveFileName name = name ++ qstr ".json") ∧
    (strEndsWith name (qstr ".json") = true → bugReportFileName name = name) ∧
    (strEndsWith name (qstr ".json") = false →
      bugReportFileName name = name ++ qstr ".json") ∧
    settingsSaveFileName (qstr "report.JSON") = qstr "report.JSON" ∧
    bugReportFileName (qstr "report") = qstr "report.json" ∧
    bugReportFileName (qstr "report.JSON") = qstr "report.JSON.json" := by
  refine ⟨?_, ?_, ?_, ?_, by decide, by decide, by decide⟩ <;>
    intro h <;> simp [settingsSaveFileName, bugReportFileName, h]

/-- Closed instantiation of C3 at the spec's two example names. -/
theorem C3_extension_asymmetry_witness :
    settingsSaveFileName (qstr "report.JSON") = qstr "report.JSON" ∧
    bugReportFileName (qstr "report") = qstr "report" ++ qstr ".json" :=
  ⟨(C3_extension_asymmetry (qstr "report.JSON")).1 (by decide),
   (C3_extension_asymmetry (qstr "report")).2.2.2.1 (by decide)⟩

/-- Claim C4: `reset false` rebuilds the snapshot by clearing it and merging
in order the default configuration and then the local-backend configuration,
so the effective value of any key is the local-backend one whenever that
layer defines the key and the default one otherwise; every `reset` call
resynchronizes the widgets to the snapshot, clears the dirty flag and
disables the affordance; and `reset true` leaves the snapshot untouched. -/
theorem C4_reset_merge_and_sync (env : ConfigEnv) (s : MainWindowState) :
    (reset env false s).config =
      mergeConfig (mergeConfig ([] : Config) env.defaultConfiguration) env.localBackend ∧
    (∀ k : Str, lookup? ((reset env false s).config) k =
      orElseO (lookupLast? env.localBackend k) (lookupLast? env.defaultConfiguration k)) ∧
    (∀ onlyUI : Bool,
      (reset env onlyUI s).widgets = (reset env onlyUI s).config ∧
      (reset env onlyUI s).m_configChanged = false ∧
      (reset env onlyUI s).buttonBoxEnabled = false) ∧
    (reset env true s).config = s.config := by
  exact ⟨rfl, reset_effectiveValue env s, fun _ => ⟨rfl, rfl, rfl⟩, rfl⟩

/-- A sample bug-report environment: one matching log file, one empty
directory, identity compression and a constant base64 stub. -/
def sampleBugEnv : BugReportEnv :=
  { os := qstr "Linux", machineInfo := qstr "m", buildHost := BuildHost.x86_64,
    version := qstr "3.0",
    logDirs := [[(qstr "ItalcCore.log", [1, 2])], []],
    compress := fun bs => bs,
    toBase64 := fun _ => qstr "QQ" }

/-- Claim C5: with a non-empty chosen path, `generateBugReportArchive`
performs a single write at the end, to the ".json"-normalized path, of a
document whose `General` group is exactly OS, MachineInfo, BuildType and
Version, whose `Configuration` group embeds the whole current snapshot, and
whose `LogFiles` group holds exactly the `Italc*.log`-matching files keyed by
base filename with the base64 encoding of their compressed contents; the
build-type label always lies in {"x86", "x86_64", "unknown"}; with zero
matching log files the document is still written with an empty `LogFiles`
group and the confirmation is still shown. -/
theorem C5_bugreport_document (env : BugReportEnv) (outfile : Str)
    (s : MainWindowState) (h : strIsEmpty outfile = false) :
    (generateBugReportArchive env outfile s).1 = s ∧
    (generateBugReportArchive env outfile s).2.1 =
      some (bugReportFileName outfile, buildBugReport env s.config) ∧
    (generateBugReportArchive env outfile s).2.2 = true ∧
    (buildBugReport env s.config).general =
      [(qstr "OS", env.os), (qstr "MachineInfo", env.machineInfo),
       (qstr "BuildType", buildTypeLabel env.buildHost), (qstr "Version", env.version)] ∧
    (buildBugReport env s.config).configuration = s.config ∧
    (buildBugReport env s.config).logFiles = mergeConfig [] (logFileEntries env) ∧
    (∀ b v : Str, (b, v) ∈ logFileEntries env ↔
      ∃ d ∈ env.logDirs, ∃ f ∈ d, matchesLogFilter f.1 = true ∧
        b = baseName f.1 ∧ v = env.toBase64 (env.compress f.2)) ∧
    (buildTypeLabel env.buildHost = qstr "x86" ∨
      buildTypeLabel env.buildHost = qstr "x86_64" ∨
      buildTypeLabel env.buildHost = qstr "unknown") ∧
    (logFileEntries env = [] → (buildBugReport env s.config).logFiles = []) := by
  refine ⟨?_, ?_, ?_, rfl, rfl, rfl, ?_, ?_, ?_⟩
  · simp [generateBugReportArchive, h]
  · simp [generateBugReportArchive, h]
  · simp [generateBugReportArchive, h]
  · intro b v
    simp only [logFileEntries, List.mem_flatten, List.mem_map, List.mem_filter,
      Prod.mk.injEq]
    constructor
    · rintro ⟨l, ⟨d, hd, rfl⟩, hm⟩
      rcases List.mem_map.mp hm with ⟨f, hf, hfe⟩
      rcases List.mem_filter.mp hf with ⟨hfd, hmatch⟩
      cases hfe
      exact ⟨d, hd, f, hfd, hmatch, rfl, rfl⟩
    · rintro ⟨d, hd, f, hfd, hmatch, rfl, rfl⟩
      refine ⟨_, ⟨d, hd, rfl⟩, List.mem_map.mpr ⟨f, List.mem_filter.mpr ⟨hfd, hmatch⟩, rfl⟩⟩
  · cases env.buildHost <;> simp [buildTypeLabel]
  · intro h0
    simp [buildBugReport, h0, mergeConfig]

/-- Closed instantiation of C5: the archive built from the sample
environment at path "report" is written to "report.json" with the expected
groups, and the state is untouched. -/
theorem C5_bugreport_document_witness :
    (generateBugReportArchive sampleBugEnv (qstr "report") sampleDirty).1 = sampleDirty ∧
    (buildBugReport sampleBugEnv sampleDirty.config).general =
      [(qstr "OS", sampleBugEnv.os), (qstr "MachineInfo", sampleBugEnv.machineInfo),
       (qstr "BuildType", buildTypeLabel sampleBugEnv.buildHost),
       (qstr "Version", sampleBugEnv.version)] :=
  ⟨(C5_bugreport_document sampleBugEnv (qstr "report") sampleDirty (by decide)).1,
   (C5_bugreport_document sampleBugEnv (qstr "report") sampleDirty (by decide)).2.2.2.1⟩

/-- Claim C6: with a non-empty chosen path, `loadSettingsFromFile` is exactly
the sequence "store loads the file into the live snapshot in place, then
`reset(onlyUI := true)` resynchronizes the widgets without modifying the
snapshot, then `configurationChanged()`"; immediately afterwards the dirty
flag is set, the affordance is enabled, and both snapshot and widgets hold
the loaded content. -/
theorem C6_load_sequence (env : ConfigEnv) (fileName : Str) (loaded : Config)
    (s : MainWindowState) (h : strIsEmpty fileName = false) :
    loadSettingsFromFile env fileName loaded s =
      configurationChanged (reset env true { s with config := loaded }) ∧
    (loadSettingsFromFile env fileName loaded s).m_configChanged = true ∧
    (loadSettingsFromFile env fileName loaded s).buttonBoxEnabled = true ∧
    (loadSettingsFromFile env fileName loaded s).config = loaded ∧
    (loadSettingsFromFile env fileName loaded s).widgets = loaded := by
  simp [loadSettingsFromFile, h, reset, resetConfig, configurationChanged]

/-- Closed instantiation of C6: loading a file into a clean state ends with
the dirty flag set and the snapshot replaced. -/
theorem C6_load_sequence_witness :
    (loadSettingsFromFile emptyEnv (qstr "f") [(qstr "k", qstr "v")]
      initialState).m_configChanged = true ∧
    (loadSettingsFromFile emptyEnv (qstr "f") [(qstr "k", qstr "v")]
      initialState).config = [(qstr "k", qstr "v")] :=
  ⟨(C6_load_sequence emptyEnv (qstr "f") [(qstr "k", qstr "v")] initialState (by decide)).2.1,
   (C6_load_sequence emptyEnv (qstr "f") [(qstr "k", qstr "v")] initialState
      (by decide)).2.2.2.1⟩

/-- Claim C7: at construction, after the initial `reset(false)` merge, the
window marks itself dirty and enables the affordance exactly when the
local-backend configuration holds strictly fewer entries than the merged
effective configuration; otherwise the dirty flag stays clear. -/
theorem C7_startup_dirty_heuristic (env : ConfigEnv) :
    (env.localBackend.length < (reset env false initialState).config.length →
      (mkMainWindow env).m_configChanged = true ∧
      (mkMainWindow env).buttonBoxEnabled = true) ∧
    (¬ env.localBackend.length < (reset env false initialState).config.length →
      (mkMainWindow env).m_configChanged = false ∧
      (mkMainWindow env).buttonBoxEnabled = false) := by
  simp only [mkMainWindow]
  constructor
  · intro hlt; rw [if_pos hlt]; exact ⟨rfl, rfl⟩
  · intro hlt; rw [if_neg hlt]; exact ⟨rfl, rfl⟩

/-- Closed instantiation of C7: an empty local backend against a one-key
default marks the fresh window dirty; fully empty layers leave it clean. -/
theorem C7_startup_dirty_heuristic_witness :
    (mkMainWindow sampleEnv).m_configChanged = true ∧
    (mkMainWindow emptyEnv).m_configChanged = false :=
  ⟨((C7_startup_dirty_heuristic sampleEnv).1 (by decide)).1,
   ((C7_startup_dirty_heuristic emptyEnv).2 (by decide)).1⟩

/-- Claim C8: on a close request with the dirty flag set, the prompt is shown
and the close is accepted exactly on an explicit Yes — any other answer
vetoes the close — and the window state (snapshot and dirty flag) is left
unchanged either way; with the dirty flag clear, the close is accepted with
no prompt. -/
theorem C8_close_gating (answer : MessageAnswer) (s : MainWindowState) :
    (s.m_configChanged = true →
      ((closeEvent answer s).accepted = true ↔ answer = MessageAnswer.yes) ∧
      (closeEvent answer s).promptShown = true ∧
      (closeEvent answer s).finalState = s) ∧
    (s.m_configChanged = false →
      (closeEvent answer s).accepted = true ∧
      (closeEvent answer s).promptShown = false ∧
      (closeEvent answer s).finalState = s) := by
  cases answer <;> cases hm : s.m_configChanged <;> simp_all [closeEvent]

/-- Closed instantiation of C8: declining the prompt on a dirty state keeps
the window open and the state unchanged. -/
theorem C8_close_gating_witness :
    ((closeEvent MessageAnswer.no sampleDirty).accepted = true ↔
      MessageAnswer.no = MessageAnswer.yes) ∧
    (closeEvent MessageAnswer.no sampleDirty).finalState = sampleDirty :=
  ⟨((C8_close_gating MessageAnswer.no sampleDirty).1 rfl).1,
   ((C8_close_gating MessageAnswer.no sampleDirty).1 rfl).2.2⟩

/-- Claim C9: an empty (cancelled) file-dialog result makes each of the three
dialog-driven actions a silent no-op: the state — snapshot and dirty flag
included — is returned unchanged, no write effect is produced, and no
confirmation is shown. -/
theorem C9_cancelled_dialog_noop (env : ConfigEnv) (benv : BugReportEnv)
    (flushSignal : Bool) (loaded : Config) (s : MainWindowState) :
    loadSettingsFromFile env (qstr "") loaded s = s ∧
    saveSettingsToFile flushSignal (qstr "") s = (s, none) ∧
    generateBugReportArchive benv (qstr "") s = (s, none, false) := by
  refine ⟨?_, ?_, ?_⟩ <;>
    simp [loadSettingsFromFile, saveSettingsToFile, generateBugReportArchive,
      strIsEmpty, qstr]

/-- Claim C10 (implicit invariant): every listed operation — `reset` with
either argument, `apply` on success or failure, `configurationChanged`,
`loadSettingsFromFile`, `saveSettingsToFile` — ends with the button box
enabled exactly when the dirty flag is set, provided the two agreed before
the operation; the constructor establishes the agreement. -/
theorem C10_affordance_sync_invariant (env : ConfigEnv)
    (flushSignal applyOk onlyUI : Bool) (fileName fileName2 : Str)
    (answer : MessageAnswer) (loaded : Config) (s : MainWindowState)
    (h : s.buttonBoxEnabled = s.m_configChanged) :
    (reset env onlyUI s).buttonBoxEnabled = (reset env onlyUI s).m_configChanged ∧
    (apply applyOk s).buttonBoxEnabled = (apply applyOk s).m_configChanged ∧
    (configurationChanged s).buttonBoxEnabled = (configurationChanged s).m_configChanged ∧
    (loadSettingsFromFile env fileName loaded s).buttonBoxEnabled =
      (loadSettingsFromFile env fileName loaded s).m_configChanged ∧
    (saveSettingsToFile flushSignal fileName2 s).1.buttonBoxEnabled =
      (saveSettingsToFile flushSignal fileName2 s).1.m_configChanged ∧
    ((closeEvent answer s).finalState).buttonBoxEnabled =
      ((closeEvent answer s).finalState).m_configChanged ∧
    (mkMainWindow env).buttonBoxEnabled = (mkMainWindow env).m_configChanged := by
  refine ⟨rfl, ?_, rfl, ?_, ?_, ?_, ?_⟩
  · cases applyOk <;> simp [apply, h]
  · cases hf : strIsEmpty fileName <;>
      simp [loadSettingsFromFile, hf, reset, configurationChanged, h]
  · cases hf : strIsEmpty fileName2 <;> cases flushSignal <;>
      simp [saveSettingsToFile, hf, configurationChanged, h]
  · simp only [closeEvent]; split <;> exact h
  · simp only [mkMainWindow]; split <;> rfl

/-- Closed instantiation of C10: a failing apply on an in-sync dirty state
leaves the affordance and the flag in agreement. -/
theorem C10_affordance_sync_invariant_witness :
    (apply false sampleDirty).buttonBoxEnabled = (apply false sampleDirty).m_configChanged :=
  (C10_affordance_sync_invariant emptyEnv true false true (qstr "") (qstr "")
    MessageAnswer.no [] sampleDirty rfl).2.1

end Configurator
